import Mathlib

/-!
Verification development for the RID-qualifier core: the test payload
builder (`monitoring/rid_qualifier/aircraft_state_replayer.py`) and the
display-data evaluator (`monitoring/uss_qualifier/rid/display_data_evaluator.py`),
shallowly embedded over rational-valued timestamps (seconds) and
coordinates (degrees).

External geographic primitives (s2sphere great-circle distance, the Earth
circumference constant) are injected capabilities in the source; they are
modelled here as an explicit function parameter `gcd` (degrees of arc
between two corners) and an explicit constant.
-/

/-- A geographic position, in degrees (the `position {lat, lng}` of a
telemetry sample). -/
structure Position where
  lat : ℚ
  lng : ℚ
deriving DecidableEq

/-- One telemetry sample: a timestamp (seconds on an absolute timeline)
and a position. -/
structure Telemetry where
  timestamp : ℚ
  position : Position
deriving DecidableEq

/-- Python's binary `min` specialised to ℚ. -/
def rmin (a b : ℚ) : ℚ := if a ≤ b then a else b

/-- Python's binary `max` specialised to ℚ. -/
def rmax (a b : ℚ) : ℚ := if a ≤ b then b else a

/-- Python's `min(list)`: `none` on the empty list (a `ValueError` in the
source), otherwise the least element. -/
def listMin : List ℚ → Option ℚ
  | [] => none
  | x :: xs =>
    match listMin xs with
    | none => some x
    | some m => some (rmin x m)

/-- Python's `max(list)`: `none` on the empty list, otherwise the greatest
element. -/
def listMax : List ℚ → Option ℚ
  | [] => none
  | x :: xs =>
    match listMax xs with
    | none => some x
    | some m => some (rmax x m)

/-- The `flight_details` sub-record of a `FullFlightRecord`. -/
structure FlightDetailsRec where
  operation_description : String
  serial_number : String
deriving DecidableEq

/-- The `operator_details` sub-record of a `FullFlightRecord`. -/
structure OperatorDetails where
  operator_id : String
  location : String
  registration_number : String
deriving DecidableEq

/-- The `flight_telemetry` sub-record: a record-level id plus the ordered
telemetry states. -/
structure FlightTelemetry where
  id : String
  states : List Telemetry
deriving DecidableEq

/-- A recorded flight as loaded from disk (`FullFlightRecord`). -/
structure FullFlightRecord where
  reference_time : ℚ
  flight_telemetry : FlightTelemetry
  flight_details : FlightDetailsRec
  operator_details : OperatorDetails
deriving DecidableEq

/-- `RIDFlightDetails` as constructed by the builder. -/
structure RIDFlightDetails where
  id : String
  operator_id : String
  operator_location : String
  operation_description : String
  serial_number : String
  registration_number : String
deriving DecidableEq

/-- `TestFlightDetails(effective_after, details)`. -/
structure TestFlightDetails where
  effective_after : ℚ
  details : RIDFlightDetails
deriving DecidableEq

/-- `TestFlight(injection_id, telemetry, details_responses)`. -/
structure TestFlight where
  injection_id : String
  telemetry : List Telemetry
  details_responses : List TestFlightDetails
deriving DecidableEq

/-- `TestPayload(test_id, requested_flights)`. -/
structure TestPayload where
  test_id : String
  requested_flights : List TestFlight
deriving DecidableEq

/-- `DeliverablePayload(injection_path, injection_payload)`. -/
structure DeliverablePayload where
  injection_path : String
  injection_payload : TestPayload
deriving DecidableEq

/-- The timeline rewrite performed in the body of `build_test_payloads`
(lines 60-78 of `aircraft_state_replayer.py`): the anchor is
`test_start_time.shift(minutes=1)`, the signed offset is
`anchor - disk_reference_time`, every telemetry timestamp is shifted by
that offset, and `reference_time` is overwritten with the test's
reference time (not with the anchor). -/
def rewriteRecord (test_reference_time test_start_time : ℚ)
    (record : FullFlightRecord) : FullFlightRecord :=
  let test_start_offset := test_start_time + 60
  let timestamp_offset := test_start_offset - record.reference_time
  { record with
      reference_time := test_reference_time
      flight_telemetry :=
        { record.flight_telemetry with
            states := record.flight_telemetry.states.map
              (fun s => { s with timestamp := s.timestamp + timestamp_offset }) } }

/-- The `TestFlight` appended to the shared `requested_flights` list in
iteration `i` of the build loop.  `uuids` is the stream of fresh UUIDv4
strings drawn during the run: iteration `i` draws `uuids (2*i)` for its
`test_id` (drawn first, line 65) and `uuids (2*i+1)` for its
`injection_id` (drawn second, line 89). -/
def buildFlight (test_reference_time test_start_time : ℚ) (uuids : ℕ → String)
    (i : ℕ) (record : FullFlightRecord) : TestFlight :=
  let rewritten := rewriteRecord test_reference_time test_start_time record
  let flight_id := record.flight_telemetry.id
  let rid_flight_details : RIDFlightDetails :=
    { id := flight_id
      operator_id := record.operator_details.operator_id
      operator_location := record.operator_details.location
      operation_description := record.flight_details.operation_description
      serial_number := record.flight_details.serial_number
      registration_number := record.operator_details.registration_number }
  let test_flight_details : TestFlightDetails :=
    { effective_after := test_start_time + 60, details := rid_flight_details }
  { injection_id := uuids (2 * i + 1)
    telemetry := rewritten.flight_telemetry.states
    details_responses := [test_flight_details] }

/-- Content of the single `requested_flights` Python list object after the
build loop has consumed `records`.  In the source this list is created
once, before the loop (line 63), and every `TestPayload` aliases it. -/
def sharedFlights (test_reference_time test_start_time : ℚ) (uuids : ℕ → String)
    (records : List FullFlightRecord) : List TestFlight :=
  records.enum.map (fun p => buildFlight test_reference_time test_start_time uuids p.1 p.2)

/-- `build_test_payloads` as observed at its return point.  Because every
`TestPayload` holds a reference to the one shared `requested_flights`
list, dereferencing any payload after the loop yields the full list of
flights built for all USSes. -/
def build_test_payloads (now test_start_time : ℚ) (uuids : ℕ → String)
    (records : List FullFlightRecord) : List DeliverablePayload :=
  let shared := sharedFlights now test_start_time uuids records
  records.enum.map (fun p =>
    let test_id := uuids (2 * p.1)
    { injection_path := "/tests/" ++ test_id
      injection_payload := { test_id := test_id, requested_flights := shared } })

/-- The `requested_flights` sequence observed through any already-built
payload immediately after loop iteration `k` (0-based): the shared list
then holds the flights of iterations `0..k`.  Every payload built in an
iteration `j ≤ k` aliases this same list object. -/
def payloadFlightsView (now test_start_time : ℚ) (uuids : ℕ → String)
    (records : List FullFlightRecord) (k : ℕ) : List TestFlight :=
  sharedFlights now test_start_time uuids (records.take (k + 1))

/-- A deterministic stand-in for the UUIDv4 stream, used for concrete runs. -/
def uuidSeq : ℕ → String := fun n => "uuid-" ++ toString n

/-- A small concrete flight record used for concrete runs of the builder. -/
def demoRecord (j : ℕ) : FullFlightRecord :=
  { reference_time := 1000
    flight_telemetry :=
      { id := "flight-" ++ toString j
        states := [⟨1000, ⟨46, 7⟩⟩, ⟨1010, ⟨46, 7⟩⟩] }
    flight_details := { operation_description := "demo", serial_number := "sn" }
    operator_details := { operator_id := "op", location := "loc", registration_number := "reg" } }

/-- `EvaluationConfiguration` (durations in seconds, diagonal in meters). -/
structure EvaluationConfiguration where
  min_polling_interval : ℚ
  max_propagation_latency : ℚ
  min_query_diagonal : ℚ
  repeat_query_rect_period : ℕ
deriving DecidableEq

/-- The versioned RID constants consumed by the evaluator
(`realtime_period` in seconds, diagonals in kilometers). -/
structure RIDVersion where
  realtime_period : ℚ
  max_diagonal_km : ℚ
  max_details_diagonal_km : ℚ
deriving DecidableEq

/-- An `InjectedFlight`: the ground truth known to the evaluator, binding
a USS identity (`uss.name` in the source) to one `TestFlight`. -/
structure InjectedFlight where
  uss_name : String
  flight : TestFlight
deriving DecidableEq

/-- The fields of a `fetch.Query` the evaluator reads: the request
timestamp (`query.request.timestamp`, called `t_initiated`), the reported
response timestamp (`query.response.reported`, called `t_response`), and
the HTTP status code. -/
structure Query where
  request_timestamp : ℚ
  response_reported : ℚ
  status_code : ℕ
deriving DecidableEq

/-- One flight of a `GetDisplayDataResponse`; the evaluator only reads its
`id`. -/
structure ObservedFlight where
  id : String
deriving DecidableEq

/-- A parsed display-data observation. -/
structure GetDisplayDataResponse where
  flights : List ObservedFlight
deriving DecidableEq

/-- The findings the evaluator can append to the `Findings` sink.  The
`Query`/rect evidence attached by the sink is abbreviated to the fields
that identify the finding. -/
inductive Finding where
  | observation_failure (observer : String)
  | duplicate_flights (observer flight_id : String) (count : ℕ) (uss : String)
  | premature_flight (observer flight_id : String) (t_min t_response : ℚ) (uss : String)
  | lingering_flight (observer flight_id : String) (t_max t_initiated : ℚ) (uss : String)
  | missing_flight (observer flight_id : String) (uss : String)
  | area_too_large_not_indicated (observer : String) (diagonal : ℚ)
deriving DecidableEq

/-- Recogniser for `premature_flight` findings. -/
def isPremature : Finding → Bool
  | .premature_flight .. => true
  | _ => false

/-- Recogniser for `lingering_flight` findings. -/
def isLingering : Finding → Bool
  | .lingering_flight .. => true
  | _ => false

/-- Recogniser for `missing_flight` findings. -/
def isMissing : Finding → Bool
  | .missing_flight .. => true
  | _ => false

/-- Recogniser for the three mutually-exclusive visibility findings. -/
def isVisibility : Finding → Bool
  | .premature_flight .. => true
  | .lingering_flight .. => true
  | .missing_flight .. => true
  | _ => false

/-- Recogniser for `duplicate_flights` findings. -/
def isDuplicate : Finding → Bool
  | .duplicate_flights .. => true
  | _ => false

/-- `len(matching_flights)`: the number of observed flights whose id
equals the expected flight's id. -/
def matchingCount (observation : GetDisplayDataResponse) (flight_id : String) : ℕ :=
  (observation.flights.filter (fun observed_flight => observed_flight.id == flight_id)).length

/-- The `duplicate_flights` emission of `_evaluate_normal_observation`
(lines 297-304): fires exactly when more than one observed flight matches. -/
def duplicateFindings (observer flight_id uss : String) (m : ℕ) : List Finding :=
  if 1 < m then [Finding.duplicate_flights observer flight_id m uss] else []

/-- The `if / elif` visibility classification of
`_evaluate_normal_observation` (lines 306-352), with `m` the number of
matching observed flights.  The trailing `elif t_initiated > t_min`
branch is a deliberate no-op in the source. -/
def visibilityFindings (cfg : EvaluationConfiguration) (rid_version : RIDVersion)
    (observer flight_id uss : String) (t_min t_max t_initiated t_response : ℚ)
    (m : ℕ) : List Finding :=
  if t_response < t_min then
    if m ≠ 0 then [Finding.premature_flight observer flight_id t_min t_response uss] else []
  else if t_max + rid_version.realtime_period + cfg.max_propagation_latency < t_response then
    if m ≠ 0 then [Finding.lingering_flight observer flight_id t_max t_initiated uss] else []
  else if t_min + cfg.max_propagation_latency < t_initiated ∧
      t_initiated < t_max + rid_version.realtime_period then
    if m = 0 then [Finding.missing_flight observer flight_id uss] else []
  else []

/-- One iteration of the `for expected_flight in self._injected_flights`
loop of `_evaluate_normal_observation`: the findings emitted for one
expected flight.  `none` models the exceptions the source can raise here:
`min()`/`max()` on an empty telemetry list (evaluated first) and
`details_responses[0]` on an empty details list. -/
def evaluate_expected_flight (cfg : EvaluationConfiguration) (rid_version : RIDVersion)
    (observer : String) (query : Query) (observation : GetDisplayDataResponse)
    (expected_flight : InjectedFlight) : Option (List Finding) :=
  let t_initiated := query.request_timestamp
  let t_response := query.response_reported
  let timestamps := expected_flight.flight.telemetry.map (fun s => s.timestamp)
  match listMin timestamps, listMax timestamps with
  | some t_min, some t_max =>
    match expected_flight.flight.details_responses with
    | [] => none
    | dr :: _ =>
      let flight_id := dr.details.id
      let m := matchingCount observation flight_id
      some (duplicateFindings observer flight_id expected_flight.uss_name m ++
        visibilityFindings cfg rid_version observer flight_id expected_flight.uss_name
          t_min t_max t_initiated t_response m)
  | _, _ => none

/-- `_evaluate_normal_observation`: an absent observation yields a single
`observation_failure` finding; otherwise the per-flight findings are
concatenated in injected-flight order. -/
def evaluate_normal_observation (cfg : EvaluationConfiguration) (rid_version : RIDVersion)
    (observer : String) (injected_flights : List InjectedFlight)
    (observation : Option GetDisplayDataResponse) (query : Query) : Option (List Finding) :=
  match observation with
  | none => some [Finding.observation_failure observer]
  | some obs =>
    (injected_flights.mapM
      (fun expected_flight =>
        evaluate_expected_flight cfg rid_version observer query obs expected_flight)).map
      List.flatten

/-- `_evaluate_area_to_large_observation` (lines 357-363): emits
`area_too_large_not_indicated` exactly when the HTTP status is not 413. -/
def evaluate_area_to_large_observation (observer : String) (diagonal : ℚ)
    (query : Query) : List Finding :=
  if query.status_code ≠ 413 then
    [Finding.area_too_large_not_indicated observer diagonal]
  else []

/-- Modelled from the spec: the Earth-circumference constant
`geo.EARTH_CIRCUMFERENCE_KM` lives in `monitoring/monitorlib/geo.py`,
which is not under `src/`; the spec treats the geographic primitives as
injected capabilities. -/
def EARTH_CIRCUMFERENCE_KM : ℚ := 40075017 / 1000

/-- A query rectangle, as the four bounds the source manipulates.  The
source's final `LatLngRect.from_point_pair(p1, p2)` has `lo = p1` and
`hi = p2` whenever `lat_min ≤ lat_max`, so `lo/hi` are read back as
`(lat_min, lng_min)/(lat_max, lng_max)`. -/
structure RectBounds where
  lat_min : ℚ
  lng_min : ℚ
  lat_max : ℚ
  lng_max : ℚ
deriving DecidableEq

/-- Rectangle diagonal in kilometers
(`rect.lo().get_distance(rect.hi()).degrees * geo.EARTH_CIRCUMFERENCE_KM / 360`,
line 254-256), with `gcd` the injected great-circle arc, in degrees,
between the two corners. -/
def diagonalKm (gcd : ℚ → ℚ → ℚ → ℚ → ℚ) (b : RectBounds) : ℚ :=
  gcd b.lat_min b.lng_min b.lat_max b.lng_max * EARTH_CIRCUMFERENCE_KM / 360

/-- Rectangle diagonal in meters
(`c1.get_distance(c2).degrees * geo.EARTH_CIRCUMFERENCE_KM * 1000 / 360`,
lines 132-136). -/
def diagonalM (gcd : ℚ → ℚ → ℚ → ℚ → ℚ) (b : RectBounds) : ℚ :=
  gcd b.lat_min b.lng_min b.lat_max b.lng_max * EARTH_CIRCUMFERENCE_KM * 1000 / 360

/-- The `_evaluate_observation` dispatcher (lines 247-267): by diagonal,
area-too-large, then clusters (a no-op in the source), then normal
evaluation. -/
def evaluate_observation (gcd : ℚ → ℚ → ℚ → ℚ → ℚ) (cfg : EvaluationConfiguration)
    (rid_version : RIDVersion) (observer : String)
    (injected_flights : List InjectedFlight) (rect : RectBounds)
    (observation : Option GetDisplayDataResponse) (query : Query) : Option (List Finding) :=
  if rid_version.max_diagonal_km < diagonalKm gcd rect then
    some (evaluate_area_to_large_observation observer (diagonalKm gcd rect) query)
  else if rid_version.max_details_diagonal_km < diagonalKm gcd rect then
    some []
  else
    evaluate_normal_observation cfg rid_version observer injected_flights observation query

/-- Accumulator of the bounds sweep in `_get_query_rect` (lines 93-114). -/
structure SweepState where
  data_exists : Bool
  lat_min : ℚ
  lat_max : ℚ
  lng_min : ℚ
  lng_max : ℚ
deriving DecidableEq

/-- One step of the bounds sweep: points whose timestamp falls in
`[t_min, t_max]` extend the bounds, others are skipped. -/
def sweepUpdate (t_min t_max : ℚ) (acc : SweepState) (tel : Telemetry) : SweepState :=
  if t_min ≤ tel.timestamp ∧ tel.timestamp ≤ t_max then
    { data_exists := true
      lat_min := rmin acc.lat_min tel.position.lat
      lat_max := rmax acc.lat_max tel.position.lat
      lng_min := rmin acc.lng_min tel.position.lng
      lng_max := rmax acc.lng_max tel.position.lng }
  else acc

/-- All telemetry samples of all injected flights, in iteration order. -/
def allTelemetry (injected_flights : List InjectedFlight) : List Telemetry :=
  (injected_flights.map (fun injected_flight => injected_flight.flight.telemetry)).flatten

/-- The fallback accumulation of `_get_query_rect` (lines 117-125): sum of
latitudes, sum of longitudes, and the sample count `n`. -/
def meanAccum (pts : List Telemetry) : ℚ × ℚ × ℕ :=
  pts.foldl
    (fun acc tel => (acc.1 + tel.position.lat, acc.2.1 + tel.position.lng, acc.2.2 + 1))
    (0, 0, 0)

/-- The pre-loop phase of `_get_query_rect` (lines 93-127): sweep the
in-window bounds; if no data is in the window, fall back to the mean
position of all samples.  `none` models the unguarded `lat / n` with
`n = 0` (a `ZeroDivisionError` in the source). -/
def boundsPhase (cfg : EvaluationConfiguration) (rid_version : RIDVersion)
    (injected_flights : List InjectedFlight) (t : ℚ) : Option RectBounds :=
  let t_min := t - rid_version.realtime_period - cfg.max_propagation_latency
  let t_max := t
  let pts := allTelemetry injected_flights
  let sw := pts.foldl (sweepUpdate t_min t_max) ⟨false, 90, -90, 360, -360⟩
  if sw.data_exists then
    some ⟨sw.lat_min, sw.lng_min, sw.lat_max, sw.lng_max⟩
  else
    let acc := meanAccum pts
    if acc.2.2 = 0 then none
    else some ⟨acc.1 / (acc.2.2 : ℚ), acc.2.1 / (acc.2.2 : ℚ),
      acc.1 / (acc.2.2 : ℚ), acc.2.1 / (acc.2.2 : ℚ)⟩

/-- The single-point padding step of the expansion loop (lines 139-144):
pad each bound by 1e-5 degrees. -/
def padPoint (b : RectBounds) : RectBounds :=
  ⟨b.lat_min - 1 / 100000, b.lng_min - 1 / 100000,
    b.lat_max + 1 / 100000, b.lng_max + 1 / 100000⟩

/-- The overshoot factor of the expansion loop (line 130). -/
def OVERSHOOT : ℚ := 101 / 100

/-- Scale both spans of a rectangle by `f` about its midpoint. -/
def scaleAbout (b : RectBounds) (f : ℚ) : RectBounds :=
  let lat_center := (b.lat_min + b.lat_max) / 2
  let lat_span := (b.lat_max - b.lat_min) * f
  let lng_center := (b.lng_min + b.lng_max) / 2
  let lng_span := (b.lng_max - b.lng_min) * f
  ⟨lat_center - lat_span / 2, lng_center - lng_span / 2,
    lat_center + lat_span / 2, lng_center + lng_span / 2⟩

/-- The scaling assignment of the expansion loop (lines 145-162): both
spans are scaled by `min_query_diagonal / diagonal * OVERSHOOT` about the
existing midpoint. -/
def scaleStep (gcd : ℚ → ℚ → ℚ → ℚ → ℚ) (min_query_diagonal : ℚ)
    (b : RectBounds) : RectBounds :=
  scaleAbout b (min_query_diagonal / diagonalM gcd b * OVERSHOOT)

/-- The `while True` expansion loop of `_get_query_rect` (lines 130-162),
with explicit fuel; `none` is an unfinished loop (or, in the branch
guarded by `diagonal = 0`, the `ZeroDivisionError` the source would raise
when dividing by a zero diagonal of a non-degenerate rectangle). -/
def expandLoop (gcd : ℚ → ℚ → ℚ → ℚ → ℚ) (min_query_diagonal : ℚ) :
    ℕ → RectBounds → Option RectBounds
  | 0, _ => none
  | fuel + 1, b =>
    if min_query_diagonal ≤ diagonalM gcd b then some b
    else if b.lat_min = b.lat_max ∧ b.lng_min = b.lng_max then
      expandLoop gcd min_query_diagonal fuel (padPoint b)
    else if diagonalM gcd b = 0 then none
    else expandLoop gcd min_query_diagonal fuel (scaleStep gcd min_query_diagonal b)

/-- `_get_query_rect`: the bounds phase followed by the expansion loop. -/
def get_query_rect (gcd : ℚ → ℚ → ℚ → ℚ → ℚ) (cfg : EvaluationConfiguration)
    (rid_version : RIDVersion) (injected_flights : List InjectedFlight)
    (t : ℚ) (fuel : ℕ) : Option RectBounds :=
  (boundsPhase cfg rid_version injected_flights t).bind
    (expandLoop gcd cfg.min_query_diagonal fuel)

/-- The catch-up loop of `evaluate_system` (lines 219-220):
`while t_next < now: t_next += min_polling_interval`, with explicit fuel
(`none` is an unfinished loop). -/
def catch_up (min_polling_interval now : ℚ) : ℕ → ℚ → Option ℚ
  | 0, t_next => if t_next < now then none else some t_next
  | fuel + 1, t_next =>
    if t_next < now then catch_up min_polling_interval now fuel (t_next + min_polling_interval)
    else some t_next

/-- The scheduling step at the bottom of the polling loop (lines 218-222):
catch `t_next` up past `now`, then break out of the polling loop if
`t_next > t_end` (the `Bool` is the break decision; sleeping toward
`t_next` happens only when it is `false`). -/
def schedule_next_poll (min_polling_interval t_end now : ℚ) (fuel : ℕ)
    (t_next : ℚ) : Option (ℚ × Bool) :=
  (catch_up min_polling_interval now fuel t_next).map
    (fun t2 => (t2, decide (t_end < t2)))

/-- A concrete evaluation configuration: 5 s propagation latency, 1000 m
minimum query diagonal. -/
def demoConfig : EvaluationConfiguration :=
  { min_polling_interval := 5
    max_propagation_latency := 5
    min_query_diagonal := 1000
    repeat_query_rect_period := 3 }

/-- A concrete RID version: 60 s realtime period, 7 km / 2 km diagonal
thresholds (the NetRID F3411-19 values). -/
def demoRIDVersion : RIDVersion :=
  { realtime_period := 60
    max_diagonal_km := 7
    max_details_diagonal_km := 2 }

/-- A concrete stand-in for the injected great-circle arc: the sum of the
two coordinate differences, in degrees.  It is exactly homogeneous under
span scaling, which the true arc is approximately for small rectangles. -/
def gcdLin : ℚ → ℚ → ℚ → ℚ → ℚ :=
  fun lat1 lng1 lat2 lng2 => (lat2 - lat1) + (lng2 - lng1)

/-- A concrete stand-in for the injected great-circle arc that, like the
true arc, is bounded: it saturates at 180 degrees (antipodal points). -/
def gcdCap : ℚ → ℚ → ℚ → ℚ → ℚ :=
  fun lat1 lng1 lat2 lng2 => rmin ((lat2 - lat1) + (lng2 - lng1)) 180

/-- `RIDFlightDetails` of the concrete expected flight. -/
def demoDetails : RIDFlightDetails :=
  { id := "F1", operator_id := "op", operator_location := "loc"
    operation_description := "demo", serial_number := "sn"
    registration_number := "reg" }

/-- A concrete expected flight whose telemetry timestamps (relative to a
poll instant `T = 0`) are given by `ts`. -/
def demoFlight (ts : List ℚ) : InjectedFlight :=
  { uss_name := "uss1"
    flight :=
      { injection_id := "inj-1"
        telemetry := ts.map (fun t => ⟨t, ⟨46, 7⟩⟩)
        details_responses := [{ effective_after := 0, details := demoDetails }] } }

/-- An observation with an empty flight list. -/
def demoEmptyObservation : GetDisplayDataResponse := { flights := [] }

/-- An observation containing exactly the expected flight `F1`. -/
def demoObservationF1 : GetDisplayDataResponse := { flights := [{ id := "F1" }] }

/-- A concrete injected flight with geographically spread telemetry, for
concrete runs of the query-rectangle planner. -/
def demoGeoFlight : InjectedFlight :=
  { uss_name := "uss1"
    flight :=
      { injection_id := "inj-1"
        telemetry := [⟨0, ⟨0, 0⟩⟩, ⟨10, ⟨1, 1⟩⟩]
        details_responses := [{ effective_after := 0, details := demoDetails }] } }

/-- A concrete injected flight with an empty telemetry list. -/
def demoEmptyFlight : InjectedFlight :=
  { uss_name := "uss1"
    flight :=
      { injection_id := "inj-1"
        telemetry := []
        details_responses := [{ effective_after := 0, details := demoDetails }] } }

/-- Rat addition distributes over Python's binary `min`. -/
theorem rmin_add_add (a b c : ℚ) : rmin (a + c) (b + c) = rmin a b + c := by
  unfold rmin
  rcases le_total a b with h | h
  · rw [if_pos (by linarith), if_pos h]
  · rcases eq_or_lt_of_le h with rfl | hlt
    · simp
    · rw [if_neg (by intro hc; linarith), if_neg (by intro hc; linarith)]

/-- Shifting every element of a list by `c` shifts its Python `min` by `c`. -/
theorem listMin_map_add (c : ℚ) : ∀ l : List ℚ,
    listMin (l.map (fun x => x + c)) = (listMin l).map (fun x => x + c) := by
  intro l
  induction l with
  | nil => rfl
  | cons x xs ih =>
    simp only [List.map_cons, listMin, ih]
    cases listMin xs with
    | none => rfl
    | some m => simp only [Option.map_some', rmin_add_add]

/-- Claim C1: the spec says each `DeliverablePayload` carries exactly one
`TestFlight` (one flight per USS).  In the source the `requested_flights`
list is created once, before the per-USS loop, and aliased into every
`TestPayload`, so after a 3-USS build every one of the 3 payloads holds
all 3 flights (the run does draw 3 `test_id`s and 3 `injection_id`s,
i.e. 6 UUIDs). -/
theorem C1_shared_requested_flights_bug :
    ((build_test_payloads 0 2000 uuidSeq [demoRecord 0, demoRecord 1, demoRecord 2]).map
      (fun p => p.injection_payload.requested_flights.length)) = [3, 3, 3] ∧
    (build_test_payloads 0 2000 uuidSeq [demoRecord 0, demoRecord 1, demoRecord 2]).length
      = 3 := by
  constructor
  · decide
  · decide

/-- Claim C2: the spec says a `DeliverablePayload` is never mutated after
its creation.  In the source the payload built for USS 0 aliases the
shared `requested_flights` list: right after iteration 0 that payload
shows 1 flight, after iteration 1 it shows 2, and at return every payload
of a 2-USS build shows the same full 2-flight list. -/
theorem C2_payload_mutation_bug :
    payloadFlightsView 0 2000 uuidSeq [demoRecord 0, demoRecord 1] 0 ≠
      payloadFlightsView 0 2000 uuidSeq [demoRecord 0, demoRecord 1] 1 ∧
    (payloadFlightsView 0 2000 uuidSeq [demoRecord 0, demoRecord 1] 0).length = 1 ∧
    (payloadFlightsView 0 2000 uuidSeq [demoRecord 0, demoRecord 1] 1).length = 2 ∧
    (build_test_payloads 0 2000 uuidSeq [demoRecord 0, demoRecord 1]).map
        (fun p => p.injection_payload.requested_flights) =
      [payloadFlightsView 0 2000 uuidSeq [demoRecord 0, demoRecord 1] 1,
        payloadFlightsView 0 2000 uuidSeq [demoRecord 0, demoRecord 1] 1] := by
  have e1 : (payloadFlightsView 0 2000 uuidSeq [demoRecord 0, demoRecord 1] 0).length = 1 := by
    decide
  have e2 : (payloadFlightsView 0 2000 uuidSeq [demoRecord 0, demoRecord 1] 1).length = 2 := by
    decide
  refine ⟨?_, e1, e2, ?_⟩
  · intro h
    rw [h, e2] at e1
    exact absurd e1 (by decide)
  · rfl

/-- Claim C7: the timeline rewrite overwrites `reference_time` with
`test_reference_time`, shifts every telemetry sample by the one signed
offset `(test_start_time + 1 min) - disk_reference_time`, and therefore
moves the minimum telemetry timestamp to `test_start_time + 1 min` plus
the original telemetry's offset from its original `reference_time`. -/
theorem C7_timeline_rewrite (test_reference_time test_start_time : ℚ)
    (record : FullFlightRecord) (m : ℚ)
    (hm : listMin (record.flight_telemetry.states.map (fun s => s.timestamp)) = some m) :
    (rewriteRecord test_reference_time test_start_time record).reference_time
        = test_reference_time ∧
    (rewriteRecord test_reference_time test_start_time record).flight_telemetry.states
        = record.flight_telemetry.states.map
          (fun s => { s with
            timestamp := s.timestamp + ((test_start_time + 60) - record.reference_time) }) ∧
    listMin ((rewriteRecord test_reference_time test_start_time record).flight_telemetry.states.map
          (fun s => s.timestamp))
        = some ((test_start_time + 60) + (m - record.reference_time)) := by
  refine ⟨rfl, rfl, ?_⟩
  have h1 : (rewriteRecord test_reference_time test_start_time record).flight_telemetry.states.map
        (fun s => s.timestamp)
      = (record.flight_telemetry.states.map (fun s => s.timestamp)).map
        (fun x => x + ((test_start_time + 60) - record.reference_time)) := by
    simp [rewriteRecord, List.map_map]
  rw [h1, listMin_map_add, hm]
  simp only [Option.map_some']
  congr 1
  ring

/-- Witness for C7 at a concrete record: the original minimum timestamp is
1000 with `reference_time = 1000`, so after the rewrite with
`test_start_time = 2000` the minimum lands exactly on the anchor 2060 and
`reference_time` becomes 5000. -/
theorem C7_timeline_rewrite_witness :
    listMin ((demoRecord 0).flight_telemetry.states.map (fun s => s.timestamp)) = some 1000 ∧
    ((rewriteRecord 5000 2000 (demoRecord 0)).reference_time = 5000 ∧
      (rewriteRecord 5000 2000 (demoRecord 0)).flight_telemetry.states
          = (demoRecord 0).flight_telemetry.states.map
            (fun s => { s with
              timestamp := s.timestamp + (((2000 : ℚ) + 60) - (demoRecord 0).reference_time) }) ∧
      listMin ((rewriteRecord 5000 2000 (demoRecord 0)).flight_telemetry.states.map
            (fun s => s.timestamp))
          = some (((2000 : ℚ) + 60) + (1000 - (demoRecord 0).reference_time))) :=
  ⟨by decide, C7_timeline_rewrite 5000 2000 (demoRecord 0) 1000 (by decide)⟩

/-- Invariant of the catch-up loop: a result is at least the start value,
is reached from it by a whole number of interval steps (at least one when
the loop was entered), and is not before `now` unless the loop never ran. -/
theorem catch_up_spec (min_polling_interval now : ℚ) : ∀ (fuel : ℕ) (t_next t2 : ℚ),
    catch_up min_polling_interval now fuel t_next = some t2 →
    t_next ≤ t2 ∧ (¬ t2 < now ∨ (t2 = t_next ∧ ¬ t_next < now)) ∧
      ∃ k : ℕ, t2 = t_next + k * min_polling_interval ∧ (t_next < now → 1 ≤ k) := by
  intro fuel
  induction fuel with
  | zero =>
    intro t_next t2 h
    unfold catch_up at h
    split at h
    · exact absurd h (by simp)
    · rename_i hnot
      cases h
      exact ⟨le_refl _, Or.inr ⟨rfl, hnot⟩, 0, by push_cast; ring, fun hc => absurd hc hnot⟩
  | succ n ih =>
    intro t_next t2 h
    unfold catch_up at h
    split at h
    · rename_i hlt
      obtain ⟨h1, h2, k, hk, -⟩ := ih (t_next + min_polling_interval) t2 h
      have hnow : ¬ t2 < now := by
        rcases h2 with h2 | ⟨h2eq, h2n⟩
        · exact h2
        · rw [h2eq]; exact h2n
      refine ⟨?_, Or.inl hnow, k + 1, ?_, fun _ => Nat.succ_le_succ (Nat.zero_le k)⟩
      · have := not_lt.mp hnow
        linarith
      · rw [hk]; push_cast; ring
    · rename_i hnot
      cases h
      exact ⟨le_refl _, Or.inr ⟨rfl, hnot⟩, 0, by push_cast; ring, fun hc => absurd hc hnot⟩

/-- Claim C8: over one scheduling step of `evaluate_system`'s polling
loop, `t_next` never decreases, any increase is a positive whole number
of `min_polling_interval` steps, and whenever the loop does not break
(i.e. would go on to sleep toward `t_next`), the new `t_next` does not
exceed `t_end`. -/
theorem C8_schedule_monotone (min_polling_interval t_end now : ℚ) (fuel : ℕ)
    (t_next t2 : ℚ) (brk : Bool)
    (h : schedule_next_poll min_polling_interval t_end now fuel t_next = some (t2, brk)) :
    t_next ≤ t2 ∧
    (∃ k : ℕ, t2 = t_next + k * min_polling_interval ∧ (t_next < t2 → 1 ≤ k)) ∧
    (brk = false → t2 ≤ t_end) := by
  unfold schedule_next_poll at h
  cases hc : catch_up min_polling_interval now fuel t_next with
  | none => rw [hc] at h; exact absurd h (by simp)
  | some t3 =>
    rw [hc] at h
    simp only [Option.map_some', Option.some.injEq, Prod.mk.injEq] at h
    obtain ⟨ht, hb⟩ := h
    obtain ⟨h1, -, k, hk, hkpos⟩ := catch_up_spec min_polling_interval now fuel t_next t3 hc
    subst ht
    refine ⟨h1, ⟨k, hk, ?_⟩, ?_⟩
    · intro hlt
      rcases Nat.eq_zero_or_pos k with h0 | h1k
      · subst h0
        simp only [Nat.cast_zero, zero_mul, add_zero] at hk
        rw [hk] at hlt
        exact absurd hlt (lt_irrefl _)
      · exact h1k
    · intro hbf
      rw [← hb] at hbf
      exact not_lt.mp (of_decide_eq_false hbf)

/-- Witness for C8 at a concrete step: starting from `t_next = 0` with
`now = 10` and a 3-second interval, the loop lands on `t_next = 12` in
4 steps and, with `t_end = 20`, does not break. -/
theorem C8_schedule_monotone_witness :
    schedule_next_poll 3 20 10 10 0 = some (12, false) ∧
    ((0 : ℚ) ≤ 12 ∧
      (∃ k : ℕ, (12 : ℚ) = 0 + k * 3 ∧ ((0 : ℚ) < 12 → 1 ≤ k)) ∧
      (false = false → (12 : ℚ) ≤ 20)) :=
  ⟨by norm_num [schedule_next_poll, catch_up],
    C8_schedule_monotone 3 20 10 10 0 12 false
      (by norm_num [schedule_next_poll, catch_up])⟩

/-- Whatever fuel it is given, the expansion loop only ever returns a
rectangle whose diagonal meets the minimum: every exit path is guarded by
the `diagonal >= min_query_diagonal` check. -/
theorem expandLoop_le (gcd : ℚ → ℚ → ℚ → ℚ → ℚ) (min_query_diagonal : ℚ) :
    ∀ (fuel : ℕ) (b r : RectBounds),
      expandLoop gcd min_query_diagonal fuel b = some r →
      min_query_diagonal ≤ diagonalM gcd r := by
  intro fuel
  induction fuel with
  | zero => intro b r h; exact absurd h (by simp [expandLoop])
  | succ n ih =>
    intro b r h
    unfold expandLoop at h
    split at h
    · rename_i hge
      cases h
      exact hge
    · split at h
      · exact ih _ _ h
      · split at h
        · exact absurd h (by simp)
        · exact ih _ _ h

/-- Claim C5: whenever `_get_query_rect` returns, the returned rectangle's
diagonal — `great_circle_distance(lo, hi).degrees * EARTH_CIRCUMFERENCE_m / 360`
— is at least `min_query_diagonal`. -/
theorem C5_returned_diagonal_meets_minimum (gcd : ℚ → ℚ → ℚ → ℚ → ℚ)
    (cfg : EvaluationConfiguration) (rid_version : RIDVersion)
    (injected_flights : List InjectedFlight) (t : ℚ) (fuel : ℕ) (r : RectBounds)
    (h : get_query_rect gcd cfg rid_version injected_flights t fuel = some r) :
    cfg.min_query_diagonal ≤ diagonalM gcd r := by
  unfold get_query_rect at h
  cases hb : boundsPhase cfg rid_version injected_flights t with
  | none => rw [hb] at h; exact absurd h (by simp)
  | some b0 =>
    rw [hb] at h
    exact expandLoop_le gcd cfg.min_query_diagonal fuel b0 r h


/-- Witness for C5 at a concrete input: with the linear arc stand-in and
one injected flight spread over one degree, the planner returns at fuel 1
and its diagonal meets the 1000 m minimum. -/
theorem C5_returned_diagonal_meets_minimum_witness :
    get_query_rect gcdLin demoConfig demoRIDVersion [demoGeoFlight] 10 1
      = some ⟨0, 0, 1, 1⟩ ∧
    demoConfig.min_query_diagonal ≤ diagonalM gcdLin ⟨0, 0, 1, 1⟩ :=
  have h : get_query_rect gcdLin demoConfig demoRIDVersion [demoGeoFlight] 10 1
      = some ⟨0, 0, 1, 1⟩ := by
    norm_num [get_query_rect, boundsPhase, allTelemetry, demoGeoFlight, demoConfig,
      demoRIDVersion, sweepUpdate, rmin, rmax, expandLoop, diagonalM, gcdLin,
      EARTH_CIRCUMFERENCE_KM]
  ⟨h, C5_returned_diagonal_meets_minimum gcdLin demoConfig demoRIDVersion
    [demoGeoFlight] 10 1 ⟨0, 0, 1, 1⟩ h⟩

/-- The fallback accumulator's third component counts the samples. -/
theorem meanAccum_count : ∀ (pts : List Telemetry) (a b : ℚ) (n : ℕ),
    (pts.foldl
      (fun acc tel => (acc.1 + tel.position.lat, acc.2.1 + tel.position.lng, acc.2.2 + 1))
      (a, b, n)).2.2 = n + pts.length := by
  intro pts
  induction pts with
  | nil => intro a b n; simp
  | cons tel rest ih =>
    intro a b n
    simp only [List.foldl_cons, List.length_cons, ih]
    omega

/-- Claim C10: `_get_query_rect` is total only when some telemetry sample
exists.  With no telemetry at all, the out-of-window fallback divides the
accumulated coordinates by `n = 0` and the function is undefined (`none`,
a `ZeroDivisionError` in the source); with at least one sample the bounds
phase always produces a rectangle. -/
theorem C10_empty_telemetry_division_guard (gcd : ℚ → ℚ → ℚ → ℚ → ℚ)
    (cfg : EvaluationConfiguration) (rid_version : RIDVersion)
    (injected_flights : List InjectedFlight) (t : ℚ) (fuel : ℕ) :
    (allTelemetry injected_flights = [] →
      get_query_rect gcd cfg rid_version injected_flights t fuel = none) ∧
    (allTelemetry injected_flights ≠ [] →
      (boundsPhase cfg rid_version injected_flights t).isSome = true) := by
  constructor
  · intro h
    unfold get_query_rect boundsPhase
    rw [h]
    simp [meanAccum]
  · intro h
    unfold boundsPhase
    dsimp only
    split
    · simp
    · rw [if_neg]
      · simp
      · unfold meanAccum
        rw [meanAccum_count]
        simpa using fun hc => h (List.length_eq_zero.mp hc)

/-- Witness for C10: a flight with no telemetry makes the planner raise,
while the geo demo flight keeps the bounds phase defined. -/
theorem C10_empty_telemetry_division_guard_witness :
    get_query_rect gcdLin demoConfig demoRIDVersion [demoEmptyFlight] 0 5 = none ∧
    (boundsPhase demoConfig demoRIDVersion [demoGeoFlight] 10).isSome = true :=
  ⟨(C10_empty_telemetry_division_guard gcdLin demoConfig demoRIDVersion
      [demoEmptyFlight] 0 5).1 (by decide),
    (C10_empty_telemetry_division_guard gcdLin demoConfig demoRIDVersion
      [demoGeoFlight] 10 5).2 (by decide)⟩

/-- If the injected arc is bounded so that no rectangle can ever reach the
requested minimum diagonal, the expansion loop never exits, whatever fuel
it is given. -/
theorem expandLoop_stuck_below (gcd : ℚ → ℚ → ℚ → ℚ → ℚ) (C min_query_diagonal : ℚ)
    (hC : ∀ b, diagonalM gcd b ≤ C) (hlt : C < min_query_diagonal) :
    ∀ (fuel : ℕ) (b : RectBounds), expandLoop gcd min_query_diagonal fuel b = none := by
  intro fuel
  induction fuel with
  | zero => intro b; rfl
  | succ n ih =>
    intro b
    unfold expandLoop
    rw [if_neg (not_le.mpr (lt_of_le_of_lt (hC b) hlt))]
    split
    · exact ih _
    · split
      · rfl
      · exact ih _

/-- The saturating arc stand-in keeps every diagonal at or below the
half-circumference value, exactly as the true great-circle arc does. -/
theorem diagonalM_gcdCap_le (b : RectBounds) :
    diagonalM gcdCap b ≤ 180 * EARTH_CIRCUMFERENCE_KM * 1000 / 360 := by
  have h1 : gcdCap b.lat_min b.lng_min b.lat_max b.lng_max ≤ 180 := by
    unfold gcdCap rmin
    split
    · assumption
    · exact le_refl _
  unfold diagonalM EARTH_CIRCUMFERENCE_KM
  unfold EARTH_CIRCUMFERENCE_KM at h1
  nlinarith [h1]

/-- Claim C6 counterexample: with a bounded arc (the true great-circle arc
saturates at 180 degrees) and a `min_query_diagonal` beyond the attainable
maximum, the expansion loop does not halt within the 64 iterations the
spec suggests as a cap — and a scaling iteration does not strictly
increase the diagonal once the arc has saturated. -/
theorem C6_nontermination_counterexample :
    expandLoop gcdCap 1000000000 64 ⟨0, 0, 1, 1⟩ = none ∧
    diagonalM gcdCap (scaleStep gcdCap 1000000000 ⟨0, 0, 90, 90⟩) =
      diagonalM gcdCap ⟨0, 0, 90, 90⟩ := by
  constructor
  · exact expandLoop_stuck_below gcdCap (180 * EARTH_CIRCUMFERENCE_KM * 1000 / 360)
      1000000000 diagonalM_gcdCap_le (by norm_num [EARTH_CIRCUMFERENCE_KM]) 64 ⟨0, 0, 1, 1⟩
  · norm_num [diagonalM, gcdCap, scaleStep, scaleAbout, rmin, OVERSHOOT,
      EARTH_CIRCUMFERENCE_KM]

/-- The linear arc stand-in is exactly homogeneous under span scaling. -/
theorem gcdLin_homog : ∀ (b : RectBounds) (f : ℚ), 0 ≤ f →
    diagonalM gcdLin (scaleAbout b f) = f * diagonalM gcdLin b := by
  intro b f _
  simp only [diagonalM, gcdLin, scaleAbout]
  ring

/-- Claim C6 as amended: when the injected arc is homogeneous under span
scaling (the flat-geometry approximation of great-circle distance on
small rectangles) and the current non-degenerate rectangle has a positive
diagonal below the minimum, a single scaling step lifts the diagonal to
exactly `min_query_diagonal * OVERSHOOT`, so the loop halts right after
it — the overshoot factor makes the step overshoot the threshold rather
than merely grow it. -/
theorem C6_terminates_for_homogeneous_arc (gcd : ℚ → ℚ → ℚ → ℚ → ℚ)
    (min_query_diagonal : ℚ) (b : RectBounds)
    (hhom : ∀ (b2 : RectBounds) (f : ℚ), 0 ≤ f →
      diagonalM gcd (scaleAbout b2 f) = f * diagonalM gcd b2)
    (hd : 0 < diagonalM gcd b) (hlt : diagonalM gcd b < min_query_diagonal)
    (hpt : ¬ (b.lat_min = b.lat_max ∧ b.lng_min = b.lng_max)) :
    expandLoop gcd min_query_diagonal 2 b = some (scaleStep gcd min_query_diagonal b) ∧
    diagonalM gcd (scaleStep gcd min_query_diagonal b) = min_query_diagonal * OVERSHOOT := by
  have hmin : 0 < min_query_diagonal := lt_trans hd hlt
  have hf : (0 : ℚ) ≤ min_query_diagonal / diagonalM gcd b * OVERSHOOT := by
    apply mul_nonneg
    · exact le_of_lt (div_pos hmin hd)
    · norm_num [OVERSHOOT]
  have hnew : diagonalM gcd (scaleStep gcd min_query_diagonal b)
      = min_query_diagonal * OVERSHOOT := by
    unfold scaleStep
    rw [hhom b _ hf]
    field_simp
  have e1 : ¬ min_query_diagonal ≤ diagonalM gcd b := not_le.mpr hlt
  have e2 : ¬ diagonalM gcd b = 0 := ne_of_gt hd
  have e3 : min_query_diagonal ≤ diagonalM gcd (scaleStep gcd min_query_diagonal b) := by
    rw [hnew]
    unfold OVERSHOOT
    linarith
  refine ⟨?_, hnew⟩
  show expandLoop gcd min_query_diagonal (1 + 1) b = _
  unfold expandLoop
  rw [if_neg e1, if_neg hpt, if_neg e2]
  unfold expandLoop
  rw [if_pos e3]

/-- Witness for the amended C6 at a concrete input: the linear arc is
homogeneous, the 1-degree rectangle has positive diagonal below a 10^6 m
minimum, and the loop indeed exits right after one scaling step. -/
theorem C6_terminates_for_homogeneous_arc_witness :
    expandLoop gcdLin 1000000 2 ⟨0, 0, 1, 1⟩
      = some (scaleStep gcdLin 1000000 ⟨0, 0, 1, 1⟩) ∧
    diagonalM gcdLin (scaleStep gcdLin 1000000 ⟨0, 0, 1, 1⟩) = 1000000 * OVERSHOOT :=
  C6_terminates_for_homogeneous_arc gcdLin 1000000 ⟨0, 0, 1, 1⟩ gcdLin_homog
    (by norm_num [diagonalM, gcdLin, EARTH_CIRCUMFERENCE_KM])
    (by norm_num [diagonalM, gcdLin, EARTH_CIRCUMFERENCE_KM])
    (by norm_num)

/-- The visibility classifier emits at most one finding per call. -/
theorem visibilityFindings_length_le (cfg : EvaluationConfiguration)
    (rid_version : RIDVersion) (observer flight_id uss : String)
    (t_min t_max t_initiated t_response : ℚ) (m : ℕ) :
    (visibilityFindings cfg rid_version observer flight_id uss
      t_min t_max t_initiated t_response m).length ≤ 1 := by
  unfold visibilityFindings
  split_ifs <;> simp

/-- The visibility classifier never emits a duplicate finding. -/
theorem visibilityFindings_no_duplicate (cfg : EvaluationConfiguration)
    (rid_version : RIDVersion) (observer flight_id uss : String)
    (t_min t_max t_initiated t_response : ℚ) (m : ℕ) :
    (visibilityFindings cfg rid_version observer flight_id uss
      t_min t_max t_initiated t_response m).countP isDuplicate = 0 := by
  unfold visibilityFindings
  split_ifs <;> simp [isDuplicate]

/-- The duplicate emission never contains a visibility finding. -/
theorem duplicateFindings_no_visibility (observer flight_id uss : String) (m : ℕ) :
    (duplicateFindings observer flight_id uss m).countP isVisibility = 0 := by
  unfold duplicateFindings
  split_ifs <;> simp [isVisibility]

/-- The duplicate emission fires exactly when more than one observed
flight matches. -/
theorem duplicateFindings_count (observer flight_id uss : String) (m : ℕ) :
    (duplicateFindings observer flight_id uss m).countP isDuplicate
      = if 1 < m then 1 else 0 := by
  unfold duplicateFindings
  split_ifs <;> simp [isDuplicate]

/-- The duplicate emission never satisfies a visibility recogniser. -/
theorem duplicateFindings_any_vis (observer flight_id uss : String) (m : ℕ)
    (p : Finding → Bool) (hp : ∀ f, p f = true → isVisibility f = true) :
    (duplicateFindings observer flight_id uss m).any p = false := by
  unfold duplicateFindings
  split_ifs with h1
  · simp only [List.any_cons, List.any_nil, Bool.or_false]
    cases hpf : p (Finding.duplicate_flights observer flight_id m uss)
    · rfl
    · exact absurd (hp _ hpf) (by simp [isVisibility])
  · rfl

/-- A premature finding is emitted only when the premature guard holds and
some observed flight matched. -/
theorem visibilityFindings_premature (cfg : EvaluationConfiguration)
    (rid_version : RIDVersion) (observer flight_id uss : String)
    (t_min t_max t_initiated t_response : ℚ) (m : ℕ)
    (h : (visibilityFindings cfg rid_version observer flight_id uss
      t_min t_max t_initiated t_response m).any isPremature = true) :
    t_response < t_min ∧ m ≠ 0 := by
  unfold visibilityFindings at h
  split_ifs at h with h1 h2 h3 h4 h5 h6 <;>
    simp_all [isPremature]

/-- A lingering finding is emitted only when the premature guard fails,
the lingering guard holds, and some observed flight matched. -/
theorem visibilityFindings_lingering (cfg : EvaluationConfiguration)
    (rid_version : RIDVersion) (observer flight_id uss : String)
    (t_min t_max t_initiated t_response : ℚ) (m : ℕ)
    (h : (visibilityFindings cfg rid_version observer flight_id uss
      t_min t_max t_initiated t_response m).any isLingering = true) :
    ¬ t_response < t_min ∧
    t_max + rid_version.realtime_period + cfg.max_propagation_latency < t_response ∧
    m ≠ 0 := by
  unfold visibilityFindings at h
  split_ifs at h with h1 h2 h3 h4 h5 h6 <;>
    simp_all [isLingering]

/-- A missing finding is emitted only when both earlier guards fail, the
must-be-visible window condition holds, and no observed flight matched. -/
theorem visibilityFindings_missing (cfg : EvaluationConfiguration)
    (rid_version : RIDVersion) (observer flight_id uss : String)
    (t_min t_max t_initiated t_response : ℚ) (m : ℕ)
    (h : (visibilityFindings cfg rid_version observer flight_id uss
      t_min t_max t_initiated t_response m).any isMissing = true) :
    ¬ t_response < t_min ∧
    ¬ t_max + rid_version.realtime_period + cfg.max_propagation_latency < t_response ∧
    (t_min + cfg.max_propagation_latency < t_initiated ∧
      t_initiated < t_max + rid_version.realtime_period) ∧
    m = 0 := by
  unfold visibilityFindings at h
  split_ifs at h with h1 h2 h3 h4 h5 h6 <;>
    simp_all [isMissing]

/-- Under the hypotheses that make the per-flight evaluation well defined,
its result is the duplicate emission followed by the visibility emission. -/
theorem evaluate_expected_flight_eq (cfg : EvaluationConfiguration)
    (rid_version : RIDVersion) (observer : String) (query : Query)
    (observation : GetDisplayDataResponse) (expected_flight : InjectedFlight)
    (dr : TestFlightDetails) (rest : List TestFlightDetails) (t_min t_max : ℚ)
    (hm : listMin (expected_flight.flight.telemetry.map (fun s => s.timestamp)) = some t_min)
    (hM : listMax (expected_flight.flight.telemetry.map (fun s => s.timestamp)) = some t_max)
    (hd : expected_flight.flight.details_responses = dr :: rest) :
    evaluate_expected_flight cfg rid_version observer query observation expected_flight
      = some (duplicateFindings observer dr.details.id expected_flight.uss_name
          (matchingCount observation dr.details.id) ++
        visibilityFindings cfg rid_version observer dr.details.id expected_flight.uss_name
          t_min t_max query.request_timestamp query.response_reported
          (matchingCount observation dr.details.id)) := by
  unfold evaluate_expected_flight
  simp only [hm, hM, hd]

/-- Claim C4: for one evaluation of one observation against one expected
flight, at most one of premature/lingering/missing is emitted; whichever
one appears, its own guard holds and every guard tested before it failed
(the conditions are tested in the order premature, lingering, missing);
and duplicate_flights is emitted independently, exactly when more than
one observed flight matches. -/
theorem C4_visibility_findings_exclusive (cfg : EvaluationConfiguration)
    (rid_version : RIDVersion) (observer : String) (query : Query)
    (observation : GetDisplayDataResponse) (expected_flight : InjectedFlight)
    (dr : TestFlightDetails) (rest : List TestFlightDetails) (t_min t_max : ℚ)
    (fs : List Finding)
    (hm : listMin (expected_flight.flight.telemetry.map (fun s => s.timestamp)) = some t_min)
    (hM : listMax (expected_flight.flight.telemetry.map (fun s => s.timestamp)) = some t_max)
    (hd : expected_flight.flight.details_responses = dr :: rest)
    (h : evaluate_expected_flight cfg rid_version observer query observation expected_flight
      = some fs) :
    fs.countP isVisibility ≤ 1 ∧
    fs.countP isDuplicate
      = (if 1 < matchingCount observation dr.details.id then 1 else 0) ∧
    (fs.any isPremature = true →
      query.response_reported < t_min ∧ matchingCount observation dr.details.id ≠ 0) ∧
    (fs.any isLingering = true →
      ¬ query.response_reported < t_min ∧
      t_max + rid_version.realtime_period + cfg.max_propagation_latency
        < query.response_reported ∧
      matchingCount observation dr.details.id ≠ 0) ∧
    (fs.any isMissing = true →
      ¬ query.response_reported < t_min ∧
      ¬ t_max + rid_version.realtime_period + cfg.max_propagation_latency
        < query.response_reported ∧
      (t_min + cfg.max_propagation_latency < query.request_timestamp ∧
        query.request_timestamp < t_max + rid_version.realtime_period) ∧
      matchingCount observation dr.details.id = 0) := by
  rw [evaluate_expected_flight_eq cfg rid_version observer query observation
    expected_flight dr rest t_min t_max hm hM hd] at h
  have hfs : fs = duplicateFindings observer dr.details.id expected_flight.uss_name
      (matchingCount observation dr.details.id) ++
    visibilityFindings cfg rid_version observer dr.details.id expected_flight.uss_name
      t_min t_max query.request_timestamp query.response_reported
      (matchingCount observation dr.details.id) := (Option.some.inj h).symm
  subst hfs
  refine ⟨?_, ?_, ?_, ?_, ?_⟩
  · rw [List.countP_append, duplicateFindings_no_visibility]
    simpa using le_trans (List.countP_le_length _) (visibilityFindings_length_le cfg
      rid_version observer dr.details.id expected_flight.uss_name t_min t_max
      query.request_timestamp query.response_reported
      (matchingCount observation dr.details.id))
  · rw [List.countP_append, duplicateFindings_count, visibilityFindings_no_duplicate,
      Nat.add_zero]
  · intro hany
    rw [List.any_append, duplicateFindings_any_vis observer dr.details.id
      expected_flight.uss_name (matchingCount observation dr.details.id) isPremature
      (by intro f hf; cases f <;> simp_all [isPremature, isVisibility]),
      Bool.false_or] at hany
    exact visibilityFindings_premature cfg rid_version observer dr.details.id
      expected_flight.uss_name t_min t_max query.request_timestamp
      query.response_reported (matchingCount observation dr.details.id) hany
  · intro hany
    rw [List.any_append, duplicateFindings_any_vis observer dr.details.id
      expected_flight.uss_name (matchingCount observation dr.details.id) isLingering
      (by intro f hf; cases f <;> simp_all [isLingering, isVisibility]),
      Bool.false_or] at hany
    exact visibilityFindings_lingering cfg rid_version observer dr.details.id
      expected_flight.uss_name t_min t_max query.request_timestamp
      query.response_reported (matchingCount observation dr.details.id) hany
  · intro hany
    rw [List.any_append, duplicateFindings_any_vis observer dr.details.id
      expected_flight.uss_name (matchingCount observation dr.details.id) isMissing
      (by intro f hf; cases f <;> simp_all [isMissing, isVisibility]),
      Bool.false_or] at hany
    exact visibilityFindings_missing cfg rid_version observer dr.details.id
      expected_flight.uss_name t_min t_max query.request_timestamp
      query.response_reported (matchingCount observation dr.details.id) hany

/-- Witness for C4 at the premature scenario S3: telemetry starts 10
minutes in the future, the observer still reports the flight, and exactly
the premature finding is emitted, with every reported guard condition
checking out at the concrete numbers. -/
theorem C4_visibility_findings_exclusive_witness :
    evaluate_expected_flight demoConfig demoRIDVersion "obs1" ⟨0, 0, 200⟩
        demoObservationF1 (demoFlight [600, 660, 720])
      = some [Finding.premature_flight "obs1" "F1" 600 0 "uss1"] ∧
    ([Finding.premature_flight "obs1" "F1" 600 0 "uss1"].countP isVisibility ≤ 1 ∧
      [Finding.premature_flight "obs1" "F1" 600 0 "uss1"].countP isDuplicate
        = (if 1 < matchingCount demoObservationF1 "F1" then 1 else 0) ∧
      ([Finding.premature_flight "obs1" "F1" 600 0 "uss1"].any isPremature = true →
        (0 : ℚ) < 600 ∧ matchingCount demoObservationF1 "F1" ≠ 0) ∧
      ([Finding.premature_flight "obs1" "F1" 600 0 "uss1"].any isLingering = true →
        ¬ (0 : ℚ) < 600 ∧ (720 : ℚ) + 60 + 5 < 0 ∧
        matchingCount demoObservationF1 "F1" ≠ 0) ∧
      ([Finding.premature_flight "obs1" "F1" 600 0 "uss1"].any isMissing = true →
        ¬ (0 : ℚ) < 600 ∧ ¬ (720 : ℚ) + 60 + 5 < 0 ∧
        ((600 : ℚ) + 5 < 0 ∧ (0 : ℚ) < 720 + 60) ∧
        matchingCount demoObservationF1 "F1" = 0)) :=
  have h : evaluate_expected_flight demoConfig demoRIDVersion "obs1" ⟨0, 0, 200⟩
      demoObservationF1 (demoFlight [600, 660, 720])
      = some [Finding.premature_flight "obs1" "F1" 600 0 "uss1"] := by
    norm_num [evaluate_expected_flight, demoFlight, demoDetails, demoObservationF1,
      listMin, listMax, rmin, rmax, matchingCount, duplicateFindings,
      visibilityFindings, demoConfig, demoRIDVersion]
  ⟨h, C4_visibility_findings_exclusive demoConfig demoRIDVersion "obs1" ⟨0, 0, 200⟩
    demoObservationF1 (demoFlight [600, 660, 720]) ⟨0, demoDetails⟩ [] 600 720
    [Finding.premature_flight "obs1" "F1" 600 0 "uss1"]
    (by norm_num [demoFlight, listMin, rmin]) (by norm_num [demoFlight, listMax, rmax])
    rfl h⟩

/-- Claim C3 counterexample: telemetry spans [-30 s, 30 s], propagation
latency 5 s, realtime period 60 s, the query was initiated at t = 80
(inside the must-be-visible window (-25, 90)) but its response is
reported at t = 100 > 95, and the observer returned no flights.  The
claim demands exactly one missing_flight finding; the code takes the
lingering `elif` branch first and emits nothing at all. -/
theorem C3_missing_shadowed_by_lingering_counterexample :
    listMin ((demoFlight [-30, 0, 30]).flight.telemetry.map (fun s => s.timestamp))
      = some (-30) ∧
    listMax ((demoFlight [-30, 0, 30]).flight.telemetry.map (fun s => s.timestamp))
      = some 30 ∧
    ((-30 : ℚ) + demoConfig.max_propagation_latency < 80 ∧
      (80 : ℚ) < 30 + demoRIDVersion.realtime_period) ∧
    matchingCount demoEmptyObservation "F1" = 0 ∧
    evaluate_expected_flight demoConfig demoRIDVersion "obs1" ⟨80, 100, 200⟩
      demoEmptyObservation (demoFlight [-30, 0, 30]) = some [] := by
  refine ⟨?_, ?_, ⟨?_, ?_⟩, ?_, ?_⟩
  · norm_num [demoFlight, listMin, rmin]
  · norm_num [demoFlight, listMax, rmax]
  · norm_num [demoConfig]
  · norm_num [demoRIDVersion]
  · decide
  · norm_num [evaluate_expected_flight, demoFlight, demoDetails, demoEmptyObservation,
      listMin, listMax, rmin, rmax, matchingCount, duplicateFindings,
      visibilityFindings, demoConfig, demoRIDVersion]

/-- Claim C3 as amended: the must-be-visible rule holds once the two
guards tested before it are excluded — when the reported response time is
neither before `t_min` nor after `t_max + realtime_period +
max_propagation_latency`, a query initiated strictly inside
`(t_min + max_propagation_latency, t_max + realtime_period)` whose
observation contains no flight with the expected id yields exactly one
finding: the missing_flight finding for that flight. -/
theorem C3_missing_flight_amended (cfg : EvaluationConfiguration)
    (rid_version : RIDVersion) (observer : String) (query : Query)
    (observation : GetDisplayDataResponse) (expected_flight : InjectedFlight)
    (dr : TestFlightDetails) (rest : List TestFlightDetails) (t_min t_max : ℚ)
    (hm : listMin (expected_flight.flight.telemetry.map (fun s => s.timestamp)) = some t_min)
    (hM : listMax (expected_flight.flight.telemetry.map (fun s => s.timestamp)) = some t_max)
    (hd : expected_flight.flight.details_responses = dr :: rest)
    (hmatch : matchingCount observation dr.details.id = 0)
    (h1 : ¬ query.response_reported < t_min)
    (h2 : ¬ t_max + rid_version.realtime_period + cfg.max_propagation_latency
      < query.response_reported)
    (h3 : t_min + cfg.max_propagation_latency < query.request_timestamp)
    (h4 : query.request_timestamp < t_max + rid_version.realtime_period) :
    evaluate_expected_flight cfg rid_version observer query observation expected_flight
      = some [Finding.missing_flight observer dr.details.id expected_flight.uss_name] := by
  rw [evaluate_expected_flight_eq cfg rid_version observer query observation
    expected_flight dr rest t_min t_max hm hM hd]
  have hdup : duplicateFindings observer dr.details.id expected_flight.uss_name
      (matchingCount observation dr.details.id) = [] := by
    unfold duplicateFindings
    rw [hmatch]
    norm_num
  have hvis : visibilityFindings cfg rid_version observer dr.details.id
      expected_flight.uss_name t_min t_max query.request_timestamp
      query.response_reported (matchingCount observation dr.details.id)
      = [Finding.missing_flight observer dr.details.id expected_flight.uss_name] := by
    unfold visibilityFindings
    rw [if_neg h1, if_neg h2, if_pos ⟨h3, h4⟩, if_pos hmatch]
  rw [hdup, hvis]
  rfl

/-- Witness for the amended C3 at scenario S4: telemetry [-30 s, 0, 30 s],
latency 5 s, realtime period 60 s, query initiated at t = 10 with response
reported at t = 11, empty observation — exactly one missing_flight
finding results. -/
theorem C3_missing_flight_amended_witness :
    evaluate_expected_flight demoConfig demoRIDVersion "obs1" ⟨10, 11, 200⟩
      demoEmptyObservation (demoFlight [-30, 0, 30])
      = some [Finding.missing_flight "obs1" "F1" "uss1"] :=
  C3_missing_flight_amended demoConfig demoRIDVersion "obs1" ⟨10, 11, 200⟩
    demoEmptyObservation (demoFlight [-30, 0, 30]) ⟨0, demoDetails⟩ [] (-30) 30
    (by norm_num [demoFlight, listMin, rmin])
    (by norm_num [demoFlight, listMax, rmax])
    rfl
    (by decide)
    (by norm_num)
    (by norm_num [demoConfig, demoRIDVersion])
    (by norm_num [demoConfig])
    (by norm_num [demoRIDVersion])

/-- Claim C9: when the query rectangle's diagonal in kilometers exceeds
`max_diagonal_km`, `_evaluate_observation` takes the area-too-large path:
the result is exactly the area-too-large emission, which contains the
`area_too_large_not_indicated` finding if and only if the HTTP status is
not 413, and which never contains a premature/lingering/missing/duplicate
finding. -/
theorem C9_area_too_large_path (gcd : ℚ → ℚ → ℚ → ℚ → ℚ)
    (cfg : EvaluationConfiguration) (rid_version : RIDVersion) (observer : String)
    (injected_flights : List InjectedFlight) (rect : RectBounds)
    (observation : Option GetDisplayDataResponse) (query : Query)
    (h : rid_version.max_diagonal_km < diagonalKm gcd rect) :
    evaluate_observation gcd cfg rid_version observer injected_flights rect
        observation query
      = some (evaluate_area_to_large_observation observer (diagonalKm gcd rect) query) ∧
    (Finding.area_too_large_not_indicated observer (diagonalKm gcd rect)
        ∈ evaluate_area_to_large_observation observer (diagonalKm gcd rect) query
      ↔ query.status_code ≠ 413) ∧
    (∀ f ∈ evaluate_area_to_large_observation observer (diagonalKm gcd rect) query,
      isVisibility f = false ∧ isDuplicate f = false) := by
  refine ⟨?_, ?_, ?_⟩
  · unfold evaluate_observation
    rw [if_pos h]
  · by_cases hs : query.status_code ≠ 413 <;>
      simp [evaluate_area_to_large_observation, hs]
  · intro f hf
    unfold evaluate_area_to_large_observation at hf
    split at hf
    · simp only [List.mem_singleton] at hf
      subst hf
      exact ⟨rfl, rfl⟩
    · simp at hf

/-- Witness for C9 at a concrete input: a 50-degree rectangle has a
diagonal of about 11132 km, far beyond the 7 km limit, and with an HTTP
200 response the dispatcher returns exactly the area-too-large emission. -/
theorem C9_area_too_large_path_witness :
    demoRIDVersion.max_diagonal_km < diagonalKm gcdLin ⟨0, 0, 50, 50⟩ ∧
    evaluate_observation gcdLin demoConfig demoRIDVersion "obs1" [demoGeoFlight]
        ⟨0, 0, 50, 50⟩ (some demoEmptyObservation) ⟨0, 1, 200⟩
      = some (evaluate_area_to_large_observation "obs1"
          (diagonalKm gcdLin ⟨0, 0, 50, 50⟩) ⟨0, 1, 200⟩) :=
  have h : demoRIDVersion.max_diagonal_km < diagonalKm gcdLin ⟨0, 0, 50, 50⟩ := by
    norm_num [demoRIDVersion, diagonalKm, gcdLin, EARTH_CIRCUMFERENCE_KM]
  ⟨h, (C9_area_too_large_path gcdLin demoConfig demoRIDVersion "obs1" [demoGeoFlight]
    ⟨0, 0, 50, 50⟩ (some demoEmptyObservation) ⟨0, 1, 200⟩ h).1⟩
